import Mathlib

/-!
Shallow embedding of the `osm_time_lapse` repository: two stand-alone Python
scripts, `fetch_changesets.py` (REST fetcher, namespace `Rest`) and
`fetch_osm_duckdb.py` (bulk-query fetcher, namespace `Duck`).

Modelling conventions:
* Coordinates (Python floats) are modelled as rationals; decimal literals of
  the source such as `12.23` are written `1223/100`.
* Network/query responses are passed in explicitly as finite lists: the REST
  pagination loop receives the sequence of server responses, each response
  either a page of changesets or a request error.
* Python dicts written to JSON are modelled as structures; optional keys are
  `Option` fields.  JSON serialization is modelled at the JSON-value level
  (an explicit `Json` tree), mirroring exactly which keys each script writes.
-/

/-- A bounding box `(min_lon, min_lat, max_lon, max_lat)` as used by both
scripts. -/
structure BBox where
  min_lon : ℚ
  min_lat : ℚ
  max_lon : ℚ
  max_lat : ℚ
deriving DecidableEq

/-- Centroid of a bounding box: the midpoint in each coordinate
(`fetch_changesets.py` lines 84-85). -/
def centroid (b : BBox) : ℚ × ℚ :=
  ((b.min_lon + b.max_lon) / 2, (b.min_lat + b.max_lat) / 2)

/-- The point-in-box test `min_lon <= lon <= max_lon and min_lat <= lat <=
max_lat` shared by both classifiers (`fetch_changesets.py` line 130,
`fetch_osm_duckdb.py` line 104). -/
def bboxContains (b : BBox) (lon lat : ℚ) : Bool :=
  decide (b.min_lon ≤ lon ∧ lon ≤ b.max_lon ∧ b.min_lat ≤ lat ∧ lat ≤ b.max_lat)

/-- First-bounding-box-match classification over a city table, with fallback
label `"Other"`: the loop of `classify_changeset_location`
(`fetch_changesets.py` lines 129-133). -/
def classifyPoint (cities : List (String × BBox)) (lon lat : ℚ) : String :=
  match cities with
  | [] => "Other"
  | (name, b) :: rest =>
    if bboxContains b lon lat then name else classifyPoint rest lon lat

namespace Rest

/-- The `CITIES` table of `fetch_changesets.py` (lines 26-35), in the dict's
insertion/iteration order. -/
def CITIES : List (String × BBox) :=
  [ ("Rome, IT", ⟨1223/100, 4165/100, 1285/100, 4210/100⟩),
    ("London, UK", ⟨-51/100, 5128/100, 33/100, 5169/100⟩),
    ("Manchester, UK", ⟨-235/100, 5335/100, -215/100, 5355/100⟩),
    ("Naples, IT", ⟨1410/100, 4078/100, 1440/100, 4095/100⟩),
    ("Brooklyn, NY", ⟨-7405/100, 4057/100, -7383/100, 4074/100⟩),
    ("Atlanta, GA", ⟨-8455/100, 3365/100, -8429/100, 3389/100⟩),
    ("Austin, TX", ⟨-9795/100, 3010/100, -9760/100, 3050/100⟩),
    ("Phoenix, AZ", ⟨-11235/100, 3327/100, -11190/100, 3370/100⟩) ]

/-- A parsed changeset record, i.e. the dict built in `fetch_user_changesets`
(`fetch_changesets.py` lines 63-93) possibly later extended with the `city`
key by `main` (line 149).  `Option` fields model keys that can be absent
(`bbox`, `center`, `tags`, `city`) or JSON-null values (`closed_at`, and the
inner layer of `city`). -/
structure Changeset where
  id : Nat
  user : String
  uid : Nat
  created_at : String
  closed_at : Option String
  open_ : Bool
  changes_count : Nat
  comments_count : Nat
  bbox : Option BBox
  center : Option (ℚ × ℚ)
  tags : Option (List (String × String))
  city : Option (Option String)
deriving DecidableEq

/-- The attributes of one `<changeset>` XML element, as read by
`fetch_user_changesets` (`fetch_changesets.py` lines 62-93).  The four
bounding-box attributes are carried together (`cs.get('min_lon')` present
means the box is present). -/
structure RawChangeset where
  id : Nat
  user : String
  uid : Nat
  created_at : String
  closed_at : Option String
  open_attr : Option String
  changes_count : Option Nat
  comments_count : Option Nat
  bbox : Option BBox
  tags : List (String × String)
deriving DecidableEq

/-- Building the changeset dict from one XML element
(`fetch_changesets.py` lines 63-93): the centroid is computed exactly when
the bounding box is present, tags are kept only when non-empty, and no
`city` key exists yet at parse time. -/
def parseChangeset (raw : RawChangeset) : Changeset :=
  { id := raw.id
    user := raw.user
    uid := raw.uid
    created_at := raw.created_at
    closed_at := raw.closed_at
    open_ := raw.open_attr == some ("true")
    changes_count := raw.changes_count.getD 0
    comments_count := raw.comments_count.getD 0
    bbox := raw.bbox
    center := raw.bbox.map centroid
    tags := if raw.tags.isEmpty then none else some raw.tags
    city := none }

/-- `classify_changeset_location` (`fetch_changesets.py` lines 121-133):
`None` when the changeset has no `center`, otherwise the first matching city
of `CITIES`, else `'Other'`. -/
def classify_changeset_location (cs : Changeset) : Option String :=
  match cs.center with
  | none => none
  | some (lon, lat) => some (classifyPoint CITIES lon lat)

/-- One server response in the pagination loop of `fetch_user_changesets`:
either a request error (`requests.exceptions.RequestException`) or a parsed
page of changesets. -/
abbrev Response := Except String (List Changeset)

/-- The pagination loop of `fetch_user_changesets` (`fetch_changesets.py`
lines 53-118), with the server abstracted as the finite list of responses it
would return to the successive requests (an exhausted list meaning further
requests return an empty page).  Returns the collected changesets together
with the number of requests performed.  The loop breaks on a request error
(returning what was collected so far), on an empty page, and on a page of
fewer than 100 changesets; otherwise it re-requests with the narrowed time
window. -/
def fetch_user_changesets (resps : List Response) : List Changeset × Nat :=
  match resps with
  | [] => ([], 1)
  | (Except.error _) :: _ => ([], 1)
  | (Except.ok batch) :: rest =>
    if batch.isEmpty then ([], 1)
    else if batch.length < 100 then (batch, 1)
    else
      let r := fetch_user_changesets rest
      (batch ++ r.1, r.2 + 1)

/-- The classification pass of `main` (`fetch_changesets.py` lines 148-149):
every fetched changeset gets a `city` key holding
`classify_changeset_location`'s result. -/
def classifyAll (css : List Changeset) : List Changeset :=
  css.map (fun cs => { cs with city := some (classify_changeset_location cs) })

/-- The per-user loop of `main` (`fetch_changesets.py` lines 143-154): each
user's response stream is fetched and classified independently; an error in
one user's stream does not affect the others. -/
def mainFetch (streams : List (List Response)) : List (List Changeset) :=
  streams.map (fun rs => classifyAll (fetch_user_changesets rs).1)

/-- `all_changesets.sort(key=lambda x: x['created_at'])`
(`fetch_changesets.py` line 157): stable sort by the `created_at` string. -/
def sortByCreated (css : List Changeset) : List Changeset :=
  css.mergeSort (fun a b => a.created_at ≤ b.created_at)

/-- The list written to `changesets.json` by `main` (`fetch_changesets.py`
lines 140-161): all fetched changesets, classified, sorted by
`created_at`. -/
def rawOutput (css : List Changeset) : List Changeset :=
  sortByCreated (classifyAll css)

end Rest

namespace Duck

/-- The `CITIES` table of `fetch_osm_duckdb.py` (lines 23-30), in the dict's
insertion/iteration order. -/
def CITIES : List (String × BBox) :=
  [ ("Rome, IT", ⟨1223/100, 4165/100, 1285/100, 4210/100⟩),
    ("Scottsdale, AZ", ⟨-11196/100, 3340/100, -11168/100, 3385/100⟩),
    ("London, UK", ⟨-51/100, 5128/100, 33/100, 5169/100⟩),
    ("Naples, IT", ⟨1410/100, 4078/100, 1440/100, 4095/100⟩),
    ("Brooklyn, NY", ⟨-7405/100, 4057/100, -7383/100, 4074/100⟩),
    ("Phoenix, AZ", ⟨-11235/100, 3327/100, -11190/100, 3370/100⟩) ]

/-- One row of the DuckDB query result (`fetch_osm_duckdb.py` lines 63-80).
The four nullable bounding-box columns are carried together as one
`Option BBox` (the script checks `min_lon`/`min_lat` for `None` and then
uses all four). -/
structure Row where
  id : Nat
  uid : Nat
  username : String
  created_at : String
  closed_at : Option String
  bbox : Option BBox
  num_changes : Option Nat
  tags : Option (List (String × String))
deriving DecidableEq

/-- One processed record appended to `changesets` by the row loop
(`fetch_osm_duckdb.py` lines 114-124). -/
structure Rec where
  id : Nat
  user : String
  uid : Nat
  lon : ℚ
  lat : ℚ
  changes_count : Nat
  city : String
  created_at : String
  comment : String
deriving DecidableEq

/-- The classification loop of `fetch_osm_duckdb.py` (lines 102-106): the
mutable variable `city` starts as `'Other'` and the loop breaks at the first
containing bounding box. -/
def classifyLoop (cities : List (String × BBox)) (lon lat : ℚ) (city : String) : String :=
  match cities with
  | [] => city
  | (name, b) :: rest =>
    if bboxContains b lon lat then name else classifyLoop rest lon lat city

/-- The body of the row loop for a row whose bounding box is present
(`fetch_osm_duckdb.py` lines 97-124): centroid, classification with the
`'Other'` default, comment extraction from the optional tags, and the
`num_changes` falsy-default of `0`. -/
def recOf (r : Row) (b : BBox) : Rec :=
  { id := r.id
    user := r.username
    uid := r.uid
    lon := (b.min_lon + b.max_lon) / 2
    lat := (b.min_lat + b.max_lat) / 2
    changes_count := r.num_changes.getD 0
    city := classifyLoop CITIES ((b.min_lon + b.max_lon) / 2) ((b.min_lat + b.max_lat) / 2) ("Other")
    created_at := r.created_at
    comment :=
      match r.tags with
      | none => ""
      | some ts => (ts.lookup ("comment")).getD ("") }

/-- The row loop of `fetch_osm_duckdb.py` (lines 95-124): rows without a
bounding box are skipped entirely; the others become records. -/
def process (rows : List Row) : List Rec :=
  rows.filterMap (fun r => r.bbox.map (recOf r))

/-- The month aggregation key (`fetch_osm_duckdb.py` line 135):
`cs['created_at'][:7]`. -/
def monthKey (s : String) : String :=
  s.take 7

/-- The names of the files `main` of `fetch_osm_duckdb.py` writes: when the
query returns no rows, `main` prints a message and returns before any file
is written (lines 87-89); otherwise it writes `changesets.json`,
`monthly_changesets.json` and `cities.json` (lines 127, 152, 156). -/
def outputFiles (rows : List Row) : List String :=
  if rows.isEmpty then []
  else [("changesets.json"), ("monthly_changesets.json"), ("cities.json")]

end Duck

/-- The names of the files `main` of `fetch_changesets.py` writes
unconditionally: `changesets.json` (line 160), `weekly_changesets.json`
(line 190) and `cities.json` (line 194). -/
def Rest.outputFiles (_css : List Rest.Changeset) : List String :=
  [("changesets.json"), ("weekly_changesets.json"), ("cities.json")]

/-! ### Calendar model (for the week aggregation key of `fetch_changesets.py`)

`main` turns `created_at` into a date (`datetime.fromisoformat`), subtracts
`weekday()` days (`timedelta`), and formats with `strftime('%Y-%m-%d')`
(lines 169-173).  Dates are proleptic Gregorian, as in Python's `datetime`. -/

/-- Gregorian leap-year predicate. -/
def IsLeap (y : Nat) : Prop := (y % 4 = 0 ∧ y % 100 ≠ 0) ∨ y % 400 = 0

instance (y : Nat) : Decidable (IsLeap y) := by unfold IsLeap; infer_instance

/-- Length of month `m` (1-12) of year `y`. -/
def daysInMonth (y m : Nat) : Nat :=
  match m with
  | 1 => 31
  | 2 => if IsLeap y then 29 else 28
  | 3 => 31
  | 4 => 30
  | 5 => 31
  | 6 => 30
  | 7 => 31
  | 8 => 31
  | 9 => 30
  | 10 => 31
  | 11 => 30
  | 12 => 31
  | _ => 0

/-- Days of year `y` strictly before month `m`. -/
def daysBeforeMonth (y : Nat) : Nat → Nat
  | 0 => 0
  | 1 => 0
  | m + 2 => daysBeforeMonth y (m + 1) + daysInMonth y (m + 1)

/-- A calendar date. -/
structure Date where
  year : Nat
  month : Nat
  day : Nat
deriving DecidableEq

/-- A well-formed calendar date (year ≥ 1, as in Python's `datetime`). -/
def ValidDate (d : Date) : Prop :=
  1 ≤ d.year ∧ 1 ≤ d.month ∧ d.month ≤ 12 ∧ 1 ≤ d.day ∧ d.day ≤ daysInMonth d.year d.month

instance : DecidablePred ValidDate := fun d => by unfold ValidDate; infer_instance

/-- Proleptic-Gregorian ordinal of a date, as in Python's `date.toordinal`
(0001-01-01 ↦ 1). -/
def dayNum (d : Date) : Nat :=
  365 * (d.year - 1) + (d.year - 1) / 4 + (d.year - 1) / 400 - (d.year - 1) / 100
    + daysBeforeMonth d.year d.month + d.day

/-- Python's `date.weekday()`: Monday = 0, ..., Sunday = 6. -/
def weekday (d : Date) : Nat := (dayNum d + 6) % 7

/-- The previous calendar day. -/
def prevDay (d : Date) : Date :=
  if 2 ≤ d.day then ⟨d.year, d.month, d.day - 1⟩
  else if 2 ≤ d.month then ⟨d.year, d.month - 1, daysInMonth d.year (d.month - 1)⟩
  else ⟨d.year - 1, 12, 31⟩

/-- `created_at - timedelta(days=created_at.weekday())`
(`fetch_changesets.py` line 172): going back `weekday` days. -/
def weekStart (d : Date) : Date := prevDay^[weekday d] d

/-- Zero-padded two-digit field of `strftime` (`%m`, `%d`). -/
def pad2 (n : Nat) : String := if n < 10 then "0" ++ toString n else toString n

/-- Zero-padded four-digit year field of `strftime` (`%Y`). -/
def pad4 (n : Nat) : String :=
  if n < 10 then "000" ++ toString n
  else if n < 100 then "00" ++ toString n
  else if n < 1000 then "0" ++ toString n
  else toString n

/-- `strftime('%Y-%m-%d')` (`fetch_changesets.py` line 173). -/
def formatYMD (d : Date) : String :=
  pad4 d.year ++ "-" ++ pad2 d.month ++ "-" ++ pad2 d.day

/-- Numeric value of a digit character. -/
def digitVal (c : Char) : Nat := c.toNat - 48

/-- Number denoted by a list of digit characters. -/
def natOfDigits (l : List Char) : Nat := l.foldl (fun a c => 10 * a + digitVal c) 0

/-- The date fields of `datetime.fromisoformat` on a `'YYYY-MM-DD...'`
string: characters 0-3 are the year, 5-6 the month, 8-9 the day. -/
def parseDateISO (s : String) : Date :=
  ⟨natOfDigits (s.data.take 4),
   natOfDigits ((s.data.drop 5).take 2),
   natOfDigits ((s.data.drop 8).take 2)⟩

/-- `created_at.replace('Z', '+00:00')` (`fetch_changesets.py` line 170) at
character level: every `'Z'` becomes `'+00:00'`. -/
def replaceZ : List Char → List Char
  | [] => []
  | c :: cs =>
    if c = 'Z' then '+' :: '0' :: '0' :: ':' :: '0' :: '0' :: replaceZ cs
    else c :: replaceZ cs

/-- The week aggregation key of `main` (`fetch_changesets.py` lines
169-173): parse `created_at` (after the `'Z'` replacement), go back to the
Monday of the week, format as `'%Y-%m-%d'`. -/
def Rest.weekKeyOfCreatedAt (s : String) : String :=
  formatYMD (weekStart (parseDateISO (String.mk (replaceZ s.data))))

/-- The `setdefault`-append pattern shared by both aggregation loops
(`fetch_changesets.py` lines 175-187, `fetch_osm_duckdb.py` lines 137-149):
an insertion-ordered association list, appending to an existing key. -/
def insertAppend {α : Type} (m : List (String × List α)) (k : String) (x : α) :
    List (String × List α) :=
  match m with
  | [] => [(k, [x])]
  | (k', xs) :: rest =>
    if k' = k then (k', xs ++ [x]) :: rest else (k', xs) :: insertAppend rest k x

namespace Rest

/-- One entry of the weekly aggregation (`fetch_changesets.py` lines
178-187). -/
structure WeekRec where
  id : Nat
  user : String
  lon : ℚ
  lat : ℚ
  changes_count : Nat
  city : Option String
  created_at : String
  comment : String
deriving DecidableEq

/-- The dict built at lines 178-187 for a changeset with centroid `c`:
`cs.get('city')` flattens the two optional layers of `city`, and the comment
defaults to `''`. -/
def weekRecOf (cs : Changeset) (c : ℚ × ℚ) : WeekRec :=
  { id := cs.id
    user := cs.user
    lon := c.1
    lat := c.2
    changes_count := cs.changes_count
    city := cs.city.join
    created_at := cs.created_at
    comment := ((cs.tags.getD []).lookup ("comment")).getD ("") }

/-- The weekly aggregation loop of `main` (`fetch_changesets.py` lines
164-187): changesets without `'center'` are skipped (`continue`); the others
are appended under their week key. -/
def weeklyAgg (css : List Changeset) : List (String × List WeekRec) :=
  css.foldl
    (fun m cs =>
      match cs.center with
      | none => m
      | some c => insertAppend m (weekKeyOfCreatedAt cs.created_at) (weekRecOf cs c))
    []

end Rest

namespace Duck

/-- One entry of the monthly aggregation (`fetch_osm_duckdb.py` lines
140-149): the processed record minus its `uid`. -/
structure MonthRec where
  id : Nat
  user : String
  lon : ℚ
  lat : ℚ
  changes_count : Nat
  city : String
  created_at : String
  comment : String
deriving DecidableEq

/-- Projection of a processed record to its monthly-aggregation entry
(`fetch_osm_duckdb.py` lines 140-149). -/
def monthRecOf (r : Rec) : MonthRec :=
  ⟨r.id, r.user, r.lon, r.lat, r.changes_count, r.city, r.created_at, r.comment⟩

/-- The monthly aggregation loop (`fetch_osm_duckdb.py` lines 132-149). -/
def monthlyAgg (recs : List Rec) : List (String × List MonthRec) :=
  recs.foldl (fun m r => insertAppend m (monthKey r.created_at) (monthRecOf r)) []

end Duck

/-! ### JSON values

`json.dump` / `json.load` are modelled at the JSON-value level: each script's
output structures are encoded into an explicit `Json` tree mirroring exactly
the keys and shapes the script writes, and decoded back. -/

/-- A JSON value. -/
inductive Json where
  | null : Json
  | bool : Bool → Json
  | num : ℚ → Json
  | str : String → Json
  | arr : List Json → Json
  | obj : List (String × Json) → Json

/-- Read back a JSON string. -/
def Json.asStr : Json → Option String
  | .str s => some s
  | _ => none

/-- Read back a JSON number as a natural (the integer fields of the
records). -/
def Json.asNat : Json → Option Nat
  | .num q => if q.den = 1 ∧ 0 ≤ q.num then some q.num.toNat else none
  | _ => none

/-- Read back a JSON boolean. -/
def Json.asBool : Json → Option Bool
  | .bool b => some b
  | _ => none

/-- A value written as JSON `null` when absent (`closed_at`, `city`). -/
def Json.ofOptStr : Option String → Json
  | none => .null
  | some s => .str s

/-- Read back a nullable string. -/
def Json.asOptStr : Json → Option (Option String)
  | .null => some none
  | .str s => some (some s)
  | _ => none

/-- Decode every element of a JSON array. -/
def decodeList {α : Type} (f : Json → Option α) : List Json → Option (List α)
  | [] => some []
  | j :: js =>
    match f j, decodeList f js with
    | some a, some as => some (a :: as)
    | _, _ => none

/-- Decode every value of a JSON object, keeping the keys. -/
def decodePairs {α : Type} (f : Json → Option α) :
    List (String × Json) → Option (List (String × α))
  | [] => some []
  | (k, j) :: js =>
    match f j, decodePairs f js with
    | some a, some as => some ((k, a) :: as)
    | _, _ => none

/-- The `bbox` object of a REST record (`fetch_changesets.py` lines
76-81). -/
def encodeBBoxObj (b : BBox) : Json :=
  .obj [("min_lon", .num b.min_lon), ("min_lat", .num b.min_lat),
        ("max_lon", .num b.max_lon), ("max_lat", .num b.max_lat)]

/-- Read back a `bbox` object. -/
def decodeBBoxObj : Json → Option BBox
  | .obj [("min_lon", .num a), ("min_lat", .num b), ("max_lon", .num c), ("max_lat", .num d)] =>
    some ⟨a, b, c, d⟩
  | _ => none

/-- The `center` object of a REST record (`fetch_changesets.py` lines
83-86). -/
def encodeCenter (c : ℚ × ℚ) : Json :=
  .obj [("lon", .num c.1), ("lat", .num c.2)]

/-- Read back a `center` object. -/
def decodeCenter : Json → Option (ℚ × ℚ)
  | .obj [("lon", .num x), ("lat", .num y)] => some (x, y)
  | _ => none

/-- The `tags` object of a REST record (`fetch_changesets.py` lines
89-93). -/
def encodeTags (ts : List (String × String)) : Json :=
  .obj (ts.map (fun p => (p.1, .str p.2)))

/-- Read back a `tags` object. -/
def decodeTags : Json → Option (List (String × String))
  | .obj fields => decodePairs Json.asStr fields
  | _ => none

/-- One entry of `cities.json` (`fetch_changesets.py` lines 194-201,
`fetch_osm_duckdb.py` lines 156-163): the four-element `bbox` array and the
two-element derived `center`. -/
structure CityOut where
  bbox : BBox
  center : ℚ × ℚ
deriving DecidableEq

/-- Encode one `cities.json` entry. -/
def encodeCityOut (c : CityOut) : Json :=
  .obj [("bbox", .arr [.num c.bbox.min_lon, .num c.bbox.min_lat,
                       .num c.bbox.max_lon, .num c.bbox.max_lat]),
        ("center", .arr [.num c.center.1, .num c.center.2])]

/-- Read back one `cities.json` entry. -/
def decodeCityOut : Json → Option CityOut
  | .obj [("bbox", .arr [.num a, .num b, .num c, .num d]),
          ("center", .arr [.num x, .num y])] =>
    some ⟨⟨a, b, c, d⟩, (x, y)⟩
  | _ => none

/-- The `cities.json` mapping. -/
def encodeCities (cs : List (String × CityOut)) : Json :=
  .obj (cs.map (fun p => (p.1, encodeCityOut p.2)))

/-- Read back the `cities.json` mapping. -/
def decodeCities : Json → Option (List (String × CityOut))
  | .obj fields => decodePairs decodeCityOut fields
  | _ => none

namespace Rest

/-- Encode one record of `changesets.json` with exactly the keys the script
puts into the dict, in insertion order: the eight unconditional keys (lines
63-72), then `bbox` and `center` when the box is present (lines 75-86), then
`tags` when non-empty (lines 89-93), then `city` as set by `main`
(line 149). -/
def encodeChangeset (cs : Changeset) : Json :=
  .obj (
    [("id", .num cs.id), ("user", .str cs.user), ("uid", .num cs.uid),
     ("created_at", .str cs.created_at), ("closed_at", Json.ofOptStr cs.closed_at),
     ("open", .bool cs.open_), ("changes_count", .num cs.changes_count),
     ("comments_count", .num cs.comments_count)]
    ++ (match cs.bbox with | none => [] | some b => [("bbox", encodeBBoxObj b)])
    ++ (match cs.center with | none => [] | some c => [("center", encodeCenter c)])
    ++ (match cs.tags with | none => [] | some ts => [("tags", encodeTags ts)])
    ++ (match cs.city with | none => [] | some c => [("city", Json.ofOptStr c)]))

/-- Read back one record of `changesets.json`. -/
def decodeChangeset : Json → Option Changeset
  | .obj fields => do
    let id ← (fields.lookup ("id")).bind Json.asNat
    let user ← (fields.lookup ("user")).bind Json.asStr
    let uid ← (fields.lookup ("uid")).bind Json.asNat
    let created ← (fields.lookup ("created_at")).bind Json.asStr
    let closed ← (fields.lookup ("closed_at")).bind Json.asOptStr
    let op ← (fields.lookup ("open")).bind Json.asBool
    let chc ← (fields.lookup ("changes_count")).bind Json.asNat
    let coc ← (fields.lookup ("comments_count")).bind Json.asNat
    let bbox ←
      match fields.lookup ("bbox") with
      | none => some none
      | some j => (decodeBBoxObj j).map some
    let center ←
      match fields.lookup ("center") with
      | none => some none
      | some j => (decodeCenter j).map some
    let tags ←
      match fields.lookup ("tags") with
      | none => some none
      | some j => (decodeTags j).map some
    let city ←
      match fields.lookup ("city") with
      | none => some none
      | some j => (Json.asOptStr j).map some
    some ⟨id, user, uid, created, closed, op, chc, coc, bbox, center, tags, city⟩
  | _ => none

/-- `changesets.json`: the array of records (`fetch_changesets.py` lines
159-161). -/
def encodeChangesets (l : List Changeset) : Json :=
  .arr (l.map encodeChangeset)

/-- Read back `changesets.json`. -/
def decodeChangesets : Json → Option (List Changeset)
  | .arr js => decodeList decodeChangeset js
  | _ => none

/-- Encode one weekly-aggregation entry (`fetch_changesets.py` lines
178-187): all eight keys are always present; `city` can be `null`. -/
def encodeWeekRec (r : WeekRec) : Json :=
  .obj [("id", .num r.id), ("user", .str r.user), ("lon", .num r.lon),
        ("lat", .num r.lat), ("changes_count", .num r.changes_count),
        ("city", Json.ofOptStr r.city), ("created_at", .str r.created_at),
        ("comment", .str r.comment)]

/-- Read back one weekly-aggregation entry. -/
def decodeWeekRec : Json → Option WeekRec
  | .obj [("id", i), ("user", .str u), ("lon", .num lo), ("lat", .num la),
          ("changes_count", c), ("city", ci), ("created_at", .str ca),
          ("comment", .str co)] => do
    let idN ← Json.asNat i
    let ccN ← Json.asNat c
    let cityV ← Json.asOptStr ci
    some ⟨idN, u, lo, la, ccN, cityV, ca, co⟩
  | _ => none

/-- `weekly_changesets.json`: the week-key → record-list mapping
(`fetch_changesets.py` lines 189-191). -/
def encodeWeekly (w : List (String × List WeekRec)) : Json :=
  .obj (w.map (fun p => (p.1, .arr (p.2.map encodeWeekRec))))

/-- Read back `weekly_changesets.json`. -/
def decodeWeekly : Json → Option (List (String × List WeekRec))
  | .obj fields =>
    decodePairs
      (fun j => match j with
        | .arr js => decodeList decodeWeekRec js
        | _ => none)
      fields
  | _ => none

end Rest

namespace Duck

/-- Encode one record of the bulk fetcher's `changesets.json`
(`fetch_osm_duckdb.py` lines 114-124): all nine keys are always present. -/
def encodeRec (r : Rec) : Json :=
  .obj [("id", .num r.id), ("user", .str r.user), ("uid", .num r.uid),
        ("lon", .num r.lon), ("lat", .num r.lat),
        ("changes_count", .num r.changes_count), ("city", .str r.city),
        ("created_at", .str r.created_at), ("comment", .str r.comment)]

/-- Read back one bulk-fetcher record. -/
def decodeRec : Json → Option Rec
  | .obj [("id", i), ("user", .str u), ("uid", ui), ("lon", .num lo),
          ("lat", .num la), ("changes_count", c), ("city", .str ci),
          ("created_at", .str ca), ("comment", .str co)] => do
    let idN ← Json.asNat i
    let uidN ← Json.asNat ui
    let ccN ← Json.asNat c
    some ⟨idN, u, uidN, lo, la, ccN, ci, ca, co⟩
  | _ => none

/-- The bulk fetcher's `changesets.json` (lines 126-128). -/
def encodeRecs (l : List Rec) : Json :=
  .arr (l.map encodeRec)

/-- Read back the bulk fetcher's `changesets.json`. -/
def decodeRecs : Json → Option (List Rec)
  | .arr js => decodeList decodeRec js
  | _ => none

/-- Encode one monthly-aggregation entry (`fetch_osm_duckdb.py` lines
140-149). -/
def encodeMonthRec (r : MonthRec) : Json :=
  .obj [("id", .num r.id), ("user", .str r.user), ("lon", .num r.lon),
        ("lat", .num r.lat), ("changes_count", .num r.changes_count),
        ("city", .str r.city), ("created_at", .str r.created_at),
        ("comment", .str r.comment)]

/-- Read back one monthly-aggregation entry. -/
def decodeMonthRec : Json → Option MonthRec
  | .obj [("id", i), ("user", .str u), ("lon", .num lo), ("lat", .num la),
          ("changes_count", c), ("city", .str ci), ("created_at", .str ca),
          ("comment", .str co)] => do
    let idN ← Json.asNat i
    let ccN ← Json.asNat c
    some ⟨idN, u, lo, la, ccN, ci, ca, co⟩
  | _ => none

/-- `monthly_changesets.json`: the month-key → record-list mapping (lines
151-153). -/
def encodeMonthly (w : List (String × List MonthRec)) : Json :=
  .obj (w.map (fun p => (p.1, .arr (p.2.map encodeMonthRec))))

/-- Read back `monthly_changesets.json`. -/
def decodeMonthly : Json → Option (List (String × List MonthRec))
  | .obj fields =>
    decodePairs
      (fun j => match j with
        | .arr js => decodeList decodeMonthRec js
        | _ => none)
      fields
  | _ => none

end Duck

/-! ### Sample inputs used by the witness theorems -/

/-- A sample parsed changeset with a given centroid field. -/
def sampleCS (c : Option (ℚ × ℚ)) : Rest.Changeset :=
  { id := 1, user := "u", uid := 2, created_at := "2024-03-14T10:00:00Z",
    closed_at := none, open_ := false, changes_count := 3, comments_count := 0,
    bbox := none, center := c, tags := none, city := none }

/-- A sample DuckDB row with a given bounding box. -/
def sampleRow (b : Option BBox) : Duck.Row :=
  { id := 1, uid := 2, username := "u", created_at := "2024-03-14T00:00:00",
    closed_at := none, bbox := b, num_changes := none, tags := none }

/-! ### Helper lemmas -/

theorem classifyPoint_eq_find (cities : List (String × BBox)) (lon lat : ℚ) :
    classifyPoint cities lon lat =
      ((cities.find? (fun p => bboxContains p.2 lon lat)).map Prod.fst).getD ("Other") := by
  induction cities with
  | nil => rfl
  | cons p tail ih =>
    obtain ⟨name, b⟩ := p
    by_cases h : bboxContains b lon lat = true
    · simp [classifyPoint, List.find?, h]
    · simp only [Bool.not_eq_true] at h
      simp [classifyPoint, List.find?, h, ih]

theorem classifyLoop_eq_classifyPoint (cities : List (String × BBox)) (lon lat : ℚ) :
    Duck.classifyLoop cities lon lat ("Other") = classifyPoint cities lon lat := by
  induction cities with
  | nil => rfl
  | cons p tail ih =>
    obtain ⟨name, b⟩ := p
    by_cases h : bboxContains b lon lat = true
    · simp [Duck.classifyLoop, classifyPoint, h]
    · simp only [Bool.not_eq_true] at h
      simp [Duck.classifyLoop, classifyPoint, h, ih]

/-! ### Claims -/

/-- C1: for every changeset that has a centroid, the classifier returns the
name of the first city (in the table's iteration order) whose bounding box
contains the centroid, with containment `min_lon ≤ lon ≤ max_lon ∧ min_lat ≤
lat ≤ max_lat`, and the default label `'Other'` when no box contains it. -/
theorem c1_classifier_first_match (cs : Rest.Changeset) (lon lat : ℚ)
    (h : cs.center = some (lon, lat)) :
    Rest.classify_changeset_location cs =
      some (((Rest.CITIES.find? (fun p => bboxContains p.2 lon lat)).map Prod.fst).getD ("Other")) := by
  unfold Rest.classify_changeset_location
  rw [h]
  exact congrArg some (classifyPoint_eq_find _ _ _)

/-- Witness for C1 at a concrete changeset centred at the origin. -/
theorem c1_classifier_first_match_witness :
    Rest.classify_changeset_location (sampleCS (some (0, 0))) =
      some (((Rest.CITIES.find? (fun p => bboxContains p.2 0 0)).map Prod.fst).getD ("Other")) :=
  c1_classifier_first_match (sampleCS (some (0, 0))) 0 0 rfl

/-- C3: for every bounding box with `min ≤ max` in each coordinate, the
derived centroid lies within the box. -/
theorem c3_centroid_in_box (b : BBox)
    (hlon : b.min_lon ≤ b.max_lon) (hlat : b.min_lat ≤ b.max_lat) :
    b.min_lon ≤ (centroid b).1 ∧ (centroid b).1 ≤ b.max_lon ∧
    b.min_lat ≤ (centroid b).2 ∧ (centroid b).2 ≤ b.max_lat := by
  unfold centroid
  refine ⟨?_, ?_, ?_, ?_⟩ <;> simp <;> linarith

/-- Witness for C3 at the unit box. -/
theorem c3_centroid_in_box_witness :
    (⟨0, 0, 1, 1⟩ : BBox).min_lon ≤ (centroid ⟨0, 0, 1, 1⟩).1 ∧
    (centroid ⟨0, 0, 1, 1⟩).1 ≤ (⟨0, 0, 1, 1⟩ : BBox).max_lon ∧
    (⟨0, 0, 1, 1⟩ : BBox).min_lat ≤ (centroid ⟨0, 0, 1, 1⟩).2 ∧
    (centroid ⟨0, 0, 1, 1⟩).2 ≤ (⟨0, 0, 1, 1⟩ : BBox).max_lat :=
  c3_centroid_in_box ⟨0, 0, 1, 1⟩ zero_le_one zero_le_one

/-- C4: the pagination loop terminates as soon as a page with fewer than 100
changesets (in particular an empty page) is returned: over any prefix of
full pages followed by a small page and arbitrary further pages, the loop
collects exactly the prefix pages plus the small page and performs exactly
`pre.length + 1` requests, never touching the suffix. -/
theorem c4_pagination_terminates (pre : List (List Rest.Changeset))
    (small : List Rest.Changeset) (suf : List (List Rest.Changeset))
    (hfull : ∀ p ∈ pre, 100 ≤ p.length) (hsmall : small.length < 100) :
    Rest.fetch_user_changesets ((pre ++ small :: suf).map Except.ok) =
      (pre.flatten ++ small, pre.length + 1) := by
  induction pre with
  | nil =>
    simp only [List.nil_append, List.map_cons, List.flatten, List.length_nil]
    unfold Rest.fetch_user_changesets
    by_cases he : small.isEmpty
    · rw [if_pos he]
      simp [List.isEmpty_iff.mp he]
    · rw [if_neg he, if_pos hsmall]
  | cons p tail ih =>
    have hp : 100 ≤ p.length := hfull p (List.mem_cons_self _ _)
    have hne : p.isEmpty = false := by
      cases p with
      | nil => simp at hp
      | cons a l => rfl
    simp only [List.cons_append, List.map_cons]
    unfold Rest.fetch_user_changesets
    rw [if_neg (by simp [hne]), if_neg (by omega)]
    rw [ih (fun q hq => hfull q (List.mem_cons_of_mem _ hq))]
    simp [List.flatten, List.append_assoc]

/-- Witness for C4: one full page, then a one-element page; two requests. -/
theorem c4_pagination_terminates_witness :
    Rest.fetch_user_changesets
        (([List.replicate 100 (sampleCS none)] ++ [sampleCS none] :: []).map Except.ok) =
      ([List.replicate 100 (sampleCS none)].flatten ++ [sampleCS none],
       [List.replicate 100 (sampleCS none)].length + 1) :=
  c4_pagination_terminates [List.replicate 100 (sampleCS none)] [sampleCS none] []
    (by simp) (by simp)

/-- C5: a request error during pagination stops that user's fetch, returning
exactly the changesets collected from the full pages before the error (the
error response is the last request, nothing is retried); and the main loop
processes every user's stream independently, so the run continues with the
remaining users. -/
theorem c5_error_stops_user_fetch :
    (∀ (pre : List (List Rest.Changeset)) (e : String)
        (suf : List Rest.Response),
        (∀ p ∈ pre, 100 ≤ p.length) →
        Rest.fetch_user_changesets (pre.map Except.ok ++ Except.error e :: suf) =
          (pre.flatten, pre.length + 1)) ∧
    (∀ streams : List (List Rest.Response),
        (Rest.mainFetch streams).length = streams.length) := by
  constructor
  · intro pre e suf hfull
    induction pre with
    | nil => rfl
    | cons p tail ih =>
      have hp : 100 ≤ p.length := hfull p (List.mem_cons_self _ _)
      have hne : p.isEmpty = false := by
        cases p with
        | nil => simp at hp
        | cons a l => rfl
      simp only [List.map_cons, List.cons_append]
      unfold Rest.fetch_user_changesets
      rw [if_neg (by simp [hne]), if_neg (by omega)]
      rw [ih (fun q hq => hfull q (List.mem_cons_of_mem _ hq))]
      simp [List.flatten]
  · intro streams
    simp [Rest.mainFetch]

/-- Witness for C5: one full page then an error; the full page is returned
after two requests, and a two-user run still yields two user results. -/
theorem c5_error_stops_user_fetch_witness :
    Rest.fetch_user_changesets
        ([List.replicate 100 (sampleCS none)].map Except.ok ++
          Except.error ("boom") :: [Except.ok [sampleCS none]]) =
      ([List.replicate 100 (sampleCS none)].flatten,
       [List.replicate 100 (sampleCS none)].length + 1) ∧
    (Rest.mainFetch [[Except.error ("boom")], [Except.ok [sampleCS none]]]).length =
      ([[Except.error ("boom")], [Except.ok [sampleCS none]]] :
        List (List Rest.Response)).length :=
  ⟨c5_error_stops_user_fetch.1 [List.replicate 100 (sampleCS none)] ("boom")
      [Except.ok [sampleCS none]] (by simp),
   c5_error_stops_user_fetch.2 _⟩

/-- C6: in a parsed REST record the `bbox` field is exactly the raw box and
the derived `center` field is present iff the box is; in the bulk fetcher a
row without a bounding box produces no record at all, and a row with one
produces exactly its processed record. -/
theorem c6_center_iff_bbox :
    (∀ raw : Rest.RawChangeset,
        (Rest.parseChangeset raw).bbox = raw.bbox ∧
        ((Rest.parseChangeset raw).center.isSome ↔ (Rest.parseChangeset raw).bbox.isSome)) ∧
    (∀ r : Duck.Row, r.bbox = none → Duck.process [r] = []) ∧
    (∀ (r : Duck.Row) (b : BBox), r.bbox = some b → Duck.process [r] = [Duck.recOf r b]) := by
  refine ⟨fun raw => ⟨rfl, ?_⟩, fun r h => ?_, fun r b h => ?_⟩
  · cases hb : raw.bbox <;> simp [Rest.parseChangeset, hb]
  · simp [Duck.process, h]
  · simp [Duck.process, h]

/-- Witness for C6 at concrete rows with and without a bounding box. -/
theorem c6_center_iff_bbox_witness :
    Duck.process [sampleRow none] = [] ∧
    Duck.process [sampleRow (some ⟨0, 0, 1, 1⟩)] =
      [Duck.recOf (sampleRow (some ⟨0, 0, 1, 1⟩)) ⟨0, 0, 1, 1⟩] :=
  ⟨c6_center_iff_bbox.2.1 (sampleRow none) rfl,
   c6_center_iff_bbox.2.2 (sampleRow (some ⟨0, 0, 1, 1⟩)) ⟨0, 0, 1, 1⟩ rfl⟩

/-- C9 fails as stated: a bulk-fetcher run whose query returns no rows
returns early (lines 87-89 of `fetch_osm_duckdb.py`) and writes no files at
all, not three. -/
theorem c9_three_outputs_counterexample :
    (Duck.outputFiles []).length ≠ 3 := by
  simp [Duck.outputFiles]

/-- C9 amended: the REST fetcher always writes exactly its three JSON files;
the bulk fetcher writes exactly its three JSON files whenever at least one
record was retrieved, and none on an empty query result. -/
theorem c9_three_outputs_amended :
    (∀ css : List Rest.Changeset, (Rest.outputFiles css).length = 3) ∧
    (∀ rows : List Duck.Row, rows ≠ [] → (Duck.outputFiles rows).length = 3) ∧
    Duck.outputFiles [] = [] := by
  refine ⟨fun _ => rfl, fun rows h => ?_, rfl⟩
  cases rows with
  | nil => exact absurd rfl h
  | cons r t => rfl

/-- Witness for C9 (amended) at a one-row query result. -/
theorem c9_three_outputs_amended_witness :
    (Duck.outputFiles [sampleRow none]).length = 3 :=
  c9_three_outputs_amended.2.1 [sampleRow none] (List.cons_ne_nil _ _)

/-- C7 fails as stated: the two scripts use different city tables, so the
same bounding box (here a degenerate box at Manchester's centre) gets the
same centroid but label `'Manchester, UK'` from the REST fetcher and
`'Other'` from the bulk fetcher. -/
theorem c7_same_classification_counterexample :
    centroid ⟨-9/4, 1069/20, -9/4, 1069/20⟩ = (-9/4, 1069/20) ∧
    Rest.classify_changeset_location
        { sampleCS (some (-9/4, 1069/20)) with bbox := some ⟨-9/4, 1069/20, -9/4, 1069/20⟩ } =
      some ("Manchester, UK") ∧
    (Duck.recOf (sampleRow (some ⟨-9/4, 1069/20, -9/4, 1069/20⟩)) ⟨-9/4, 1069/20, -9/4, 1069/20⟩).lon = -9/4 ∧
    (Duck.recOf (sampleRow (some ⟨-9/4, 1069/20, -9/4, 1069/20⟩)) ⟨-9/4, 1069/20, -9/4, 1069/20⟩).lat = 1069/20 ∧
    (Duck.recOf (sampleRow (some ⟨-9/4, 1069/20, -9/4, 1069/20⟩)) ⟨-9/4, 1069/20, -9/4, 1069/20⟩).city = "Other" ∧
    ("Manchester, UK" : String) ≠ "Other" := by
  refine ⟨?_, ?_, ?_, ?_, ?_, by decide⟩
  · unfold centroid
    norm_num
  · unfold Rest.classify_changeset_location
    norm_num [sampleCS, classifyPoint, Rest.CITIES, bboxContains]
  · unfold Duck.recOf
    norm_num
  · unfold Duck.recOf
    norm_num
  · unfold Duck.recOf
    have h1 : ((-9/4 : ℚ) + -9/4) / 2 = -9/4 := by norm_num
    have h2 : ((1069/20 : ℚ) + 1069/20) / 2 = 1069/20 := by norm_num
    rw [h1, h2]
    norm_num [Duck.classifyLoop, Duck.CITIES, bboxContains]

/-- C7 amended: both scripts compute the same centroid (the bounding-box
midpoint) and both classify it by first-bounding-box match with fallback
`'Other'`; but they do so over different city tables, so the resulting
labels can differ. -/
theorem c7_same_classification_amended :
    (∀ (r : Duck.Row) (b : BBox),
        ((Duck.recOf r b).lon, (Duck.recOf r b).lat) = centroid b) ∧
    (∀ (cities : List (String × BBox)) (lon lat : ℚ),
        Duck.classifyLoop cities lon lat ("Other") = classifyPoint cities lon lat) ∧
    (∀ (cs : Rest.Changeset) (lon lat : ℚ), cs.center = some (lon, lat) →
        Rest.classify_changeset_location cs = some (classifyPoint Rest.CITIES lon lat)) ∧
    Rest.CITIES.length ≠ Duck.CITIES.length := by
  refine ⟨fun r b => rfl, classifyLoop_eq_classifyPoint, fun cs lon lat h => ?_, by simp [Rest.CITIES, Duck.CITIES]⟩
  unfold Rest.classify_changeset_location
  rw [h]

/-- Witness for C7 (amended) at a concrete changeset centred at the
origin. -/
theorem c7_same_classification_amended_witness :
    Rest.classify_changeset_location (sampleCS (some (0, 0))) =
      some (classifyPoint Rest.CITIES 0 0) :=
  c7_same_classification_amended.2.2.1 (sampleCS (some (0, 0))) 0 0 rfl

/-- C10: a changeset without a centroid is classified `None`; the weekly
aggregation ignores changesets without a centroid entirely; and such a
changeset still appears in the raw `changesets.json` list with a `null`
`city` value. -/
theorem c10_no_center_handling :
    (∀ cs : Rest.Changeset, cs.center = none →
        Rest.classify_changeset_location cs = none) ∧
    (∀ css : List Rest.Changeset,
        Rest.weeklyAgg css = Rest.weeklyAgg (css.filter (fun cs => cs.center.isSome))) ∧
    (∀ (css : List Rest.Changeset) (cs : Rest.Changeset), cs ∈ css → cs.center = none →
        ({ cs with city := some none } : Rest.Changeset) ∈ Rest.rawOutput css) := by
  refine ⟨fun cs h => ?_, fun css => ?_, fun css cs hm hc => ?_⟩
  · unfold Rest.classify_changeset_location
    rw [h]
  · unfold Rest.weeklyAgg
    generalize ([] : List (String × List Rest.WeekRec)) = acc
    induction css generalizing acc with
    | nil => rfl
    | cons cs tail ih =>
      cases h : cs.center with
      | none => simpa [List.filter, h] using ih acc
      | some c => simpa [List.filter, h] using ih _
  · unfold Rest.rawOutput Rest.sortByCreated
    rw [List.mem_mergeSort]
    have hcl : Rest.classify_changeset_location cs = none := by
      unfold Rest.classify_changeset_location
      rw [hc]
    have : ({ cs with city := some none } : Rest.Changeset) =
        { cs with city := some (Rest.classify_changeset_location cs) } := by
      rw [hcl]
    rw [this]
    exact List.mem_map_of_mem _ hm

/-- Witness for C10 at a concrete changeset without a centroid. -/
theorem c10_no_center_handling_witness :
    Rest.classify_changeset_location (sampleCS none) = none ∧
    ({ sampleCS none with city := some none } : Rest.Changeset) ∈
      Rest.rawOutput [sampleCS none] :=
  ⟨c10_no_center_handling.1 (sampleCS none) rfl,
   c10_no_center_handling.2.2 [sampleCS none] (sampleCS none)
     (List.mem_cons_self _ _) rfl⟩

/-! ### JSON round-trip lemmas -/

theorem asNat_natCast (n : Nat) : Json.asNat (Json.num (n : ℚ)) = some n := by
  simp [Json.asNat]

theorem asOptStr_ofOptStr (o : Option String) :
    Json.asOptStr (Json.ofOptStr o) = some o := by
  cases o <;> rfl

theorem decodeList_map {α : Type} (f : Json → Option α) (g : α → Json)
    (l : List α) (h : ∀ x ∈ l, f (g x) = some x) :
    decodeList f (l.map g) = some l := by
  induction l with
  | nil => rfl
  | cons a t ih =>
    simp only [List.map_cons, decodeList]
    rw [h a (List.mem_cons_self _ _), ih (fun x hx => h x (List.mem_cons_of_mem _ hx))]

theorem decodePairs_map {α : Type} (f : Json → Option α) (g : α → Json)
    (l : List (String × α)) (h : ∀ x ∈ l, f (g x.2) = some x.2) :
    decodePairs f (l.map (fun p => (p.1, g p.2))) = some l := by
  induction l with
  | nil => rfl
  | cons a t ih =>
    obtain ⟨k, v⟩ := a
    simp only [List.map_cons, decodePairs]
    rw [h (k, v) (List.mem_cons_self _ _), ih (fun x hx => h x (List.mem_cons_of_mem _ hx))]

theorem decodeBBoxObj_encode (b : BBox) : decodeBBoxObj (encodeBBoxObj b) = some b := by
  obtain ⟨a, c, d, e⟩ := b
  rfl

theorem decodeCenter_encode (c : ℚ × ℚ) : decodeCenter (encodeCenter c) = some c := by
  obtain ⟨x, y⟩ := c
  rfl

theorem decodeTags_encode (ts : List (String × String)) :
    decodeTags (encodeTags ts) = some ts := by
  unfold decodeTags encodeTags
  exact decodePairs_map _ _ ts (fun x _ => rfl)

theorem decodeCityOut_encode (c : CityOut) : decodeCityOut (encodeCityOut c) = some c := by
  obtain ⟨⟨a, b, d, e⟩, x, y⟩ := c
  rfl

theorem decodeChangeset_encode (cs : Rest.Changeset) :
    Rest.decodeChangeset (Rest.encodeChangeset cs) = some cs := by
  obtain ⟨id, user, uid, ca, cl, op, chc, coc, bb, ce, tg, ci⟩ := cs
  cases bb <;> cases ce <;> cases tg <;> cases ci <;>
    simp [Rest.encodeChangeset, Rest.decodeChangeset, List.lookup, Json.asStr, Json.asBool,
      asNat_natCast, asOptStr_ofOptStr, decodeBBoxObj_encode, decodeCenter_encode,
      decodeTags_encode]

theorem decodeWeekRec_encode (r : Rest.WeekRec) :
    Rest.decodeWeekRec (Rest.encodeWeekRec r) = some r := by
  obtain ⟨id, u, lo, la, cc, ci, ca, co⟩ := r
  simp [Rest.encodeWeekRec, Rest.decodeWeekRec, asNat_natCast, asOptStr_ofOptStr]

theorem decodeRec_encode (r : Duck.Rec) :
    Duck.decodeRec (Duck.encodeRec r) = some r := by
  obtain ⟨id, u, ui, lo, la, cc, ci, ca, co⟩ := r
  simp [Duck.encodeRec, Duck.decodeRec, asNat_natCast]

theorem decodeMonthRec_encode (r : Duck.MonthRec) :
    Duck.decodeMonthRec (Duck.encodeMonthRec r) = some r := by
  obtain ⟨id, u, lo, la, cc, ci, ca, co⟩ := r
  simp [Duck.encodeMonthRec, Duck.decodeMonthRec, asNat_natCast]

/-- C8: serializing each output structure to its JSON value and reading it
back yields the identical data: the REST fetcher's record list, weekly
aggregation mapping, the bulk fetcher's record list and monthly aggregation
mapping, and the shared city-definition mapping. -/
theorem c8_json_round_trip :
    (∀ l : List Rest.Changeset, Rest.decodeChangesets (Rest.encodeChangesets l) = some l) ∧
    (∀ w : List (String × List Rest.WeekRec), Rest.decodeWeekly (Rest.encodeWeekly w) = some w) ∧
    (∀ l : List Duck.Rec, Duck.decodeRecs (Duck.encodeRecs l) = some l) ∧
    (∀ w : List (String × List Duck.MonthRec), Duck.decodeMonthly (Duck.encodeMonthly w) = some w) ∧
    (∀ c : List (String × CityOut), decodeCities (encodeCities c) = some c) := by
  refine ⟨fun l => ?_, fun w => ?_, fun l => ?_, fun w => ?_, fun c => ?_⟩
  · unfold Rest.decodeChangesets Rest.encodeChangesets
    exact decodeList_map _ _ l (fun x _ => decodeChangeset_encode x)
  · unfold Rest.decodeWeekly Rest.encodeWeekly
    exact decodePairs_map
      (fun j => match j with | .arr js => decodeList Rest.decodeWeekRec js | _ => none)
      (fun v => Json.arr (v.map Rest.encodeWeekRec)) w
      (fun x _ => decodeList_map _ _ x.2 (fun y _ => decodeWeekRec_encode y))
  · unfold Duck.decodeRecs Duck.encodeRecs
    exact decodeList_map _ _ l (fun x _ => decodeRec_encode x)
  · unfold Duck.decodeMonthly Duck.encodeMonthly
    exact decodePairs_map
      (fun j => match j with | .arr js => decodeList Duck.decodeMonthRec js | _ => none)
      (fun v => Json.arr (v.map Duck.encodeMonthRec)) w
      (fun x _ => decodeList_map _ _ x.2 (fun y _ => decodeMonthRec_encode y))
  · unfold decodeCities encodeCities
    exact decodePairs_map _ _ c (fun x _ => decodeCityOut_encode x.2)

/-! ### Calendar lemmas -/

theorem daysInMonth_pos (y m : Nat) (h1 : 1 ≤ m) (h2 : m ≤ 12) :
    1 ≤ daysInMonth y m := by
  interval_cases m <;> simp only [daysInMonth] <;> (try split) <;> norm_num

theorem daysBeforeMonth_succ (y m : Nat) (h : 1 ≤ m) :
    daysBeforeMonth y (m + 1) = daysBeforeMonth y m + daysInMonth y m := by
  cases m with
  | zero => omega
  | succ n => rfl

theorem daysBeforeMonth_twelve (y : Nat) :
    daysBeforeMonth y 12 = 334 + (if IsLeap y then 1 else 0) := by
  by_cases hL : IsLeap y <;> simp [daysBeforeMonth, daysInMonth, hL]

theorem dayNum_one : dayNum ⟨1, 1, 1⟩ = 1 := by decide

set_option maxHeartbeats 1000000 in
theorem dayNum_prevDay (d : Date) (hv : ValidDate d) (h : d ≠ ⟨1, 1, 1⟩) :
    dayNum (prevDay d) + 1 = dayNum d := by
  obtain ⟨y, m, dd⟩ := d
  unfold ValidDate at hv
  dsimp only at hv
  obtain ⟨hy, hm1, hm2, hd1, hd2⟩ := hv
  have hne : ¬(y = 1 ∧ m = 1 ∧ dd = 1) := by
    rintro ⟨e1, e2, e3⟩
    exact h (by rw [e1, e2, e3])
  unfold prevDay
  dsimp only
  split_ifs with hdd hmm
  · unfold dayNum
    dsimp only
    omega
  · have hstep : daysBeforeMonth y m = daysBeforeMonth y (m - 1) + daysInMonth y (m - 1) := by
      have hs := daysBeforeMonth_succ y (m - 1) (by omega)
      rw [show m - 1 + 1 = m by omega] at hs
      exact hs
    have hpos := daysInMonth_pos y (m - 1) (by omega) (by omega)
    unfold dayNum
    dsimp only
    omega
  · have hm : m = 1 := by omega
    have hd : dd = 1 := by omega
    have hy2 : 2 ≤ y := by omega
    subst hm
    subst hd
    unfold dayNum
    dsimp only
    rw [daysBeforeMonth_twelve]
    rw [show daysBeforeMonth y 1 = 0 from rfl]
    by_cases hL : IsLeap (y - 1)
    · rw [if_pos hL]
      unfold IsLeap at hL
      omega
    · rw [if_neg hL]
      unfold IsLeap at hL
      push_neg at hL
      omega

theorem validDate_prevDay (d : Date) (hv : ValidDate d) (h : d ≠ ⟨1, 1, 1⟩) :
    ValidDate (prevDay d) := by
  obtain ⟨y, m, dd⟩ := d
  unfold ValidDate at hv
  dsimp only at hv
  obtain ⟨hy, hm1, hm2, hd1, hd2⟩ := hv
  have hne : ¬(y = 1 ∧ m = 1 ∧ dd = 1) := by
    rintro ⟨e1, e2, e3⟩
    exact h (by rw [e1, e2, e3])
  unfold prevDay
  dsimp only
  split_ifs with hdd hmm
  · unfold ValidDate
    dsimp only
    refine ⟨hy, hm1, hm2, by omega, by omega⟩
  · unfold ValidDate
    dsimp only
    exact ⟨hy, by omega, by omega,
      daysInMonth_pos y (m - 1) (by omega) (by omega), Nat.le_refl _⟩
  · have hm : m = 1 := by omega
    have hd : dd = 1 := by omega
    have hy2 : 2 ≤ y := by omega
    unfold ValidDate
    dsimp only
    refine ⟨by omega, by norm_num, by norm_num, by norm_num, ?_⟩
    exact Nat.le_refl 31

theorem iterate_prevDay_props (k : Nat) :
    ∀ d : Date, ValidDate d → k < dayNum d →
      ValidDate (prevDay^[k] d) ∧ dayNum (prevDay^[k] d) + k = dayNum d := by
  induction k with
  | zero =>
    intro d hv _
    simpa using hv
  | succ n ih =>
    intro d hv hk
    have h2 : 2 ≤ dayNum d := by omega
    have hne : d ≠ ⟨1, 1, 1⟩ := by
      intro he
      rw [he, dayNum_one] at h2
      omega
    have hd1 := dayNum_prevDay d hv hne
    have hv1 := validDate_prevDay d hv hne
    rw [Function.iterate_succ_apply]
    obtain ⟨ha, hb⟩ := ih (prevDay d) hv1 (by omega)
    exact ⟨ha, by omega⟩

theorem dayNum_ge_seven (d : Date) (hv : ValidDate d) (hy : 2 ≤ d.year) :
    7 ≤ dayNum d := by
  obtain ⟨y, m, dd⟩ := d
  unfold ValidDate at hv
  dsimp only at hv hy
  obtain ⟨hy1, hm1, hm2, hd1, hd2⟩ := hv
  unfold dayNum
  dsimp only
  omega

/-- C2: the aggregation key is a pure function of the timestamp.  The REST
fetcher's week key goes back `weekday` days (Monday = 0) to the Monday of
the ISO week — a valid date of weekday 0 — and formats it; e.g.
`2024-03-14` maps to `2024-03-11`.  The bulk fetcher's month key is the
7-character year-month prefix of the timestamp; e.g. `2024-03`. -/
theorem c2_aggregation_keys :
    (∀ d : Date, ValidDate d → 2 ≤ d.year →
        ValidDate (weekStart d) ∧ dayNum (weekStart d) + weekday d = dayNum d ∧
        weekday (weekStart d) = 0) ∧
    Rest.weekKeyOfCreatedAt ("2024-03-14T10:00:00Z") = "2024-03-11" ∧
    (∀ (s : String) (ys ms tl : List Char),
        s.data = ys ++ '-' :: ms ++ tl → ys.length = 4 → ms.length = 2 →
        Duck.monthKey s = String.mk (ys ++ '-' :: ms)) ∧
    Duck.monthKey ("2024-03-14T08:30:00") = "2024-03" := by
  refine ⟨fun d hv hy => ?_, by decide, fun s ys ms tl hs h4 h2 => ?_, by decide⟩
  · have h7 := dayNum_ge_seven d hv hy
    have hw : weekday d < 7 := Nat.mod_lt _ (by norm_num)
    obtain ⟨h1, h2⟩ := iterate_prevDay_props (weekday d) d hv (by omega)
    have hws : weekStart d = prevDay^[weekday d] d := rfl
    rw [hws]
    refine ⟨h1, h2, ?_⟩
    have hmod : weekday d = (dayNum d + 6) % 7 := rfl
    have hmod2 : weekday (prevDay^[weekday d] d) =
        (dayNum (prevDay^[weekday d] d) + 6) % 7 := rfl
    omega
  · unfold Duck.monthKey
    rw [String.take_eq, hs]
    have hlist : List.take 7 (ys ++ '-' :: ms ++ tl) = ys ++ '-' :: ms := by
      rw [show ys ++ '-' :: ms ++ tl = (ys ++ '-' :: ms) ++ tl by simp]
      exact List.take_left' (by simp [h4, h2])
    rw [hlist]

/-- Witness for C2 at the date 2024-03-14 and its timestamp string. -/
theorem c2_aggregation_keys_witness :
    (ValidDate (weekStart ⟨2024, 3, 14⟩) ∧
      dayNum (weekStart ⟨2024, 3, 14⟩) + weekday ⟨2024, 3, 14⟩ = dayNum ⟨2024, 3, 14⟩ ∧
      weekday (weekStart ⟨2024, 3, 14⟩) = 0) ∧
    Duck.monthKey ("2024-03-14T08:30:00") =
      String.mk (['2', '0', '2', '4'] ++ '-' :: ['0', '3']) :=
  ⟨c2_aggregation_keys.1 ⟨2024, 3, 14⟩ (by decide) (by decide),
   c2_aggregation_keys.2.2.1 ("2024-03-14T08:30:00") ['2', '0', '2', '4'] ['0', '3']
     ['-', '1', '4', 'T', '0', '8', ':', '3', '0', ':', '0', '0'] (by decide) (by decide)
     (by decide)⟩
